import Mathlib

/-!
Verification development for the MySQL Cluster Bridge orchestrator
(`bridge/config.py`, `bridge/cluster.py`, `bridge/primary.py`,
`bridge/secondary.py`).

The Python code is shallowly embedded: dataclasses become structures,
mutating methods become functions returning the updated configuration,
and every external effect (subprocess invocations of systemctl, ssh,
docker, docker-compose and mysqlsh, TCP reachability probes, sleeps)
is supplied by an explicit environment record `Env` whose fields give
the observable outcome of each such call.  File writes (`save`) are
modelled by returning the document that would be written together with
a flag recording that the write happened.
-/

/-- `NodeType` enum from `bridge/config.py` (lines 19-24). -/
inductive NodeType where
  | local_systemctl
  | local_binary
  | remote_machine
  | docker_container
  deriving DecidableEq, Repr

/-- `NodeRole` enum from `bridge/config.py` (lines 27-30). -/
inductive NodeRole where
  | primary
  | secondary
  deriving DecidableEq, Repr

/-- The `.value` string of a `NodeRole` (the enum payloads in `config.py`). -/
def NodeRole.value : NodeRole → String
  | .primary => "primary"
  | .secondary => "secondary"

/-- Inverse of `NodeRole.value`: `NodeRole(string)` in Python, which raises
(`none` here) on an unrecognised string. -/
def NodeRole.ofValue : String → Option NodeRole
  | "primary" => some .primary
  | "secondary" => some .secondary
  | _ => none

/-- The `.value` string of a `NodeType`. -/
def NodeType.value : NodeType → String
  | .local_systemctl => "local_systemctl"
  | .local_binary => "local_binary"
  | .remote_machine => "remote_machine"
  | .docker_container => "docker_container"

/-- Inverse of `NodeType.value`: `NodeType(string)` in Python. -/
def NodeType.ofValue : String → Option NodeType
  | "local_systemctl" => some .local_systemctl
  | "local_binary" => some .local_binary
  | "remote_machine" => some .remote_machine
  | "docker_container" => some .docker_container
  | _ => none

/-- `NodeConfig` dataclass from `bridge/config.py` (lines 33-72), with the
dataclass field defaults.  Python `Path` values are modelled by their
(normalised) string form. -/
structure NodeConfig where
  node_id : Nat
  hostname : String
  role : NodeRole
  node_type : NodeType
  host : String := "127.0.0.1"
  port : Nat := 3306
  mysql_root_password : String := "kamo"
  ssh_user : Option String := none
  ssh_key_path : Option String := none
  ssh_port : Nat := 22
  container_name : Option String := none
  docker_network : String := "mysql-cluster-net"
  docker_ip : Option String := none
  server_id : Option Nat := none
  data_dir : Option String := none
  config_file : Option String := none
  local_address : Option String := none
  group_seeds : Option String := none
  deriving DecidableEq, Repr

/-- `NodeConfig.__post_init__` (`config.py` lines 67-72): default the
`server_id` to the node id, and the `container_name` of a Docker node to
`mysql-node-{id}`. -/
def NodeConfig.post_init (n : NodeConfig) : NodeConfig :=
  let n1 := if n.server_id = none then { n with server_id := some n.node_id } else n
  if n1.container_name = none ∧ n1.node_type = NodeType.docker_container then
    { n1 with container_name := some ("mysql-node-" ++ toString n1.node_id) }
  else n1

/-- A `NodeConfig` in Python is always constructed through `__post_init__`,
so the values reachable at runtime are exactly the `post_init`-stable ones. -/
def NodeConfig.stable (n : NodeConfig) : Prop := n.post_init = n

instance (n : NodeConfig) : Decidable n.stable := by
  unfold NodeConfig.stable; infer_instance

/-- The serialized form of a `NodeConfig` produced by `to_dict`
(`config.py` lines 95-116): same fields, enums replaced by their
`.value` strings.  This is the per-node part of the persisted JSON
document. -/
structure NodeDict where
  node_id : Nat
  hostname : String
  role : String
  node_type : String
  host : String
  port : Nat
  mysql_root_password : String
  ssh_user : Option String
  ssh_key_path : Option String
  ssh_port : Nat
  container_name : Option String
  docker_network : String
  docker_ip : Option String
  server_id : Option Nat
  data_dir : Option String
  config_file : Option String
  local_address : Option String
  group_seeds : Option String
  deriving DecidableEq, Repr

/-- `NodeConfig.to_dict` (`config.py` lines 95-116). -/
def NodeConfig.to_dict (n : NodeConfig) : NodeDict :=
  { node_id := n.node_id
    hostname := n.hostname
    role := n.role.value
    node_type := n.node_type.value
    host := n.host
    port := n.port
    mysql_root_password := n.mysql_root_password
    ssh_user := n.ssh_user
    ssh_key_path := n.ssh_key_path
    ssh_port := n.ssh_port
    container_name := n.container_name
    docker_network := n.docker_network
    docker_ip := n.docker_ip
    server_id := n.server_id
    data_dir := n.data_dir
    config_file := n.config_file
    local_address := n.local_address
    group_seeds := n.group_seeds }

/-- `NodeConfig.from_dict` (`config.py` lines 118-124): parse the enum
strings (raising, i.e. `none`, on failure) and construct the dataclass,
which runs `__post_init__`. -/
def NodeConfig.from_dict (d : NodeDict) : Option NodeConfig :=
  match NodeRole.ofValue d.role, NodeType.ofValue d.node_type with
  | some r, some t =>
      some (NodeConfig.post_init
        { node_id := d.node_id
          hostname := d.hostname
          role := r
          node_type := t
          host := d.host
          port := d.port
          mysql_root_password := d.mysql_root_password
          ssh_user := d.ssh_user
          ssh_key_path := d.ssh_key_path
          ssh_port := d.ssh_port
          container_name := d.container_name
          docker_network := d.docker_network
          docker_ip := d.docker_ip
          server_id := d.server_id
          data_dir := d.data_dir
          config_file := d.config_file
          local_address := d.local_address
          group_seeds := d.group_seeds })
  | _, _ => none

/-- `ClusterConfig` dataclass from `bridge/config.py` (lines 127-173) with
its field defaults.  The four directory fields default to locations under
the current working directory in Python; they are environment-dependent
strings here. -/
structure ClusterConfig where
  cluster_name : String := "lineairdb_cluster"
  primary : Option NodeConfig := none
  secondaries : List NodeConfig := []
  docker_network_name : String := "mysql-cluster-net"
  docker_network_subnet : String := "172.20.0.0/16"
  docker_base_ip : String := "172.20.0"
  mysql_version : String := "8.0.43"
  mysql_root_password : String := "kamo"
  mysql_database : String := "testdb"
  mysql_user : String := "clusteruser"
  mysql_user_password : String := "kamo"
  base_dir : String := "."
  config_dir : String := "./config"
  data_dir : String := "./data"
  logs_dir : String := "./logs"
  mysql_bin_dir : Option String := none
  mysqld_path : Option String := none
  mysql_client_path : Option String := none
  mysqlsh_path : Option String := none
  deriving DecidableEq, Repr

/-- Python truthiness of an optional string argument (`host or default`,
`if host and ssh_user`): `None` and the empty string are falsy. -/
def truthy : Option String → Bool
  | none => false
  | some s => s ≠ ""

/-- `a or b` on an optional string, Python semantics. -/
def orElseStr (o : Option String) (d : String) : String :=
  match o with
  | none => d
  | some s => if s = "" then d else s

/-- `ClusterConfig.add_secondary` (`config.py` lines 197-252).  Assigns
`node_id = len(secondaries) + 2`, picks the node type (explicit, or
remote when both host and ssh_user are truthy, else Docker), builds the
kind-specific `NodeConfig` (running `__post_init__`), appends it, and
returns the new node together with the updated configuration. -/
def ClusterConfig.add_secondary (cfg : ClusterConfig)
    (host ssh_user ssh_key_path : Option String)
    (node_type : Option NodeType) : NodeConfig × ClusterConfig :=
  let node_id := cfg.secondaries.length + 2
  let nt :=
    match node_type with
    | some t => t
    | none =>
        if truthy host ∧ truthy ssh_user then NodeType.remote_machine
        else NodeType.docker_container
  let node :=
    if nt = NodeType.docker_container then
      let cname := "mysql-secondary-" ++ toString (node_id - 1)
      NodeConfig.post_init
        { node_id := node_id
          hostname := cname
          role := NodeRole.secondary
          node_type := NodeType.docker_container
          host := "127.0.0.1"
          port := 33060 + node_id
          mysql_root_password := cfg.mysql_root_password
          container_name := some cname
          docker_network := cfg.docker_network_name
          docker_ip := some (cfg.docker_base_ip ++ "." ++ toString (10 + node_id)) }
    else
      NodeConfig.post_init
        { node_id := node_id
          hostname := orElseStr host ("secondary-" ++ toString (node_id - 1))
          role := NodeRole.secondary
          node_type := NodeType.remote_machine
          host := orElseStr host "127.0.0.1"
          port := 3306
          mysql_root_password := cfg.mysql_root_password
          ssh_user := ssh_user
          ssh_key_path := ssh_key_path }
  (node, { cfg with secondaries := cfg.secondaries ++ [node] })

/-- `SecondaryNodeManager.get_docker_nodes` (`secondary.py` lines 46-48). -/
def dockerNodes (cfg : ClusterConfig) : List NodeConfig :=
  cfg.secondaries.filter (fun n => n.node_type = NodeType.docker_container)

/-- `SecondaryNodeManager.get_remote_nodes` (`secondary.py` lines 50-52). -/
def remoteNodes (cfg : ClusterConfig) : List NodeConfig :=
  cfg.secondaries.filter (fun n => n.node_type = NodeType.remote_machine)

/-- Python `list.remove(x)`: delete the first element equal to `x`
(no-op here when absent; Python raises, but every call site below
removes an element known to be present). -/
def eraseFirst [DecidableEq α] : List α → α → List α
  | [], _ => []
  | x :: xs, a => if x = a then xs else x :: eraseFirst xs a

/-- The persisted JSON document written by `ClusterConfig.save`
(`config.py` lines 290-322): the cluster-wide settings plus the
serialized primary and secondaries. -/
structure ClusterDoc where
  cluster_name : String
  mysql_version : String
  mysql_root_password : String
  mysql_database : String
  mysql_user : String
  mysql_user_password : String
  docker_network_name : String
  docker_network_subnet : String
  docker_base_ip : String
  base_dir : String
  config_dir : String
  data_dir : String
  logs_dir : String
  mysql_bin_dir : Option String
  mysqld_path : Option String
  mysql_client_path : Option String
  mysqlsh_path : Option String
  primary : Option NodeDict
  secondaries : List NodeDict
  deriving DecidableEq, Repr

/-- `ClusterConfig.save` (`config.py` lines 290-322): the document written
to the config file (the file write itself is an external effect). -/
def ClusterConfig.save (cfg : ClusterConfig) : ClusterDoc :=
  { cluster_name := cfg.cluster_name
    mysql_version := cfg.mysql_version
    mysql_root_password := cfg.mysql_root_password
    mysql_database := cfg.mysql_database
    mysql_user := cfg.mysql_user
    mysql_user_password := cfg.mysql_user_password
    docker_network_name := cfg.docker_network_name
    docker_network_subnet := cfg.docker_network_subnet
    docker_base_ip := cfg.docker_base_ip
    base_dir := cfg.base_dir
    config_dir := cfg.config_dir
    data_dir := cfg.data_dir
    logs_dir := cfg.logs_dir
    mysql_bin_dir := cfg.mysql_bin_dir
    mysqld_path := cfg.mysqld_path
    mysql_client_path := cfg.mysql_client_path
    mysqlsh_path := cfg.mysqlsh_path
    primary := cfg.primary.map NodeConfig.to_dict
    secondaries := cfg.secondaries.map NodeConfig.to_dict }

/-- Parse a list of node dictionaries, failing if any entry fails
(the loop at `config.py` lines 353-354, where `from_dict` raises). -/
def fromDictList : List NodeDict → Option (List NodeConfig)
  | [] => some []
  | d :: ds =>
      match NodeConfig.from_dict d, fromDictList ds with
      | some n, some ns => some (n :: ns)
      | _, _ => none

/-- `ClusterConfig.load` (`config.py` lines 324-356): rebuild the
configuration from the document.  `data.get("primary")` is truthy iff
the document stores a node dictionary there. -/
def ClusterConfig.load (d : ClusterDoc) : Option ClusterConfig :=
  let p :=
    match d.primary with
    | none => some none
    | some pd => (NodeConfig.from_dict pd).map some
  match p, fromDictList d.secondaries with
  | some p, some secs =>
      some { cluster_name := d.cluster_name
             primary := p
             secondaries := secs
             docker_network_name := d.docker_network_name
             docker_network_subnet := d.docker_network_subnet
             docker_base_ip := d.docker_base_ip
             mysql_version := d.mysql_version
             mysql_root_password := d.mysql_root_password
             mysql_database := d.mysql_database
             mysql_user := d.mysql_user
             mysql_user_password := d.mysql_user_password
             base_dir := d.base_dir
             config_dir := d.config_dir
             data_dir := d.data_dir
             logs_dir := d.logs_dir
             mysql_bin_dir := d.mysql_bin_dir
             mysqld_path := d.mysqld_path
             mysql_client_path := d.mysql_client_path
             mysqlsh_path := d.mysqlsh_path }
  | _, _ => none

/-- Outcome of the exception handlers wrapping a lifecycle `try` block
(`primary.py` lines 166-169): either the block runs to completion, or a
`subprocess.TimeoutExpired` / generic exception is raised during it. -/
inductive ExcOutcome where
  | nofail
  | timeout
  | err (msg : String)
  deriving DecidableEq, Repr

/-- Environment: the observable outcome of every external interaction
(subprocess calls, TCP probes) made by the orchestrator.  Per-node
oracles are keyed by `node_id`; poll oracles additionally take the
attempt index of the 1-second polling loop. -/
structure Env where
  /-- `PrimaryNodeManager.is_running()` before the start attempt. -/
  alreadyRunning : Bool := false
  /-- Exit code of `sudo systemctl start <service>` for the primary. -/
  startExit : Nat := 0
  /-- Captured stderr of the primary start command. -/
  startErr : String := ""
  /-- Exception raised inside the primary-start `try` block, if any. -/
  primaryExc : ExcOutcome := .nofail
  /-- `is_running() and is_reachable()` of the primary at poll attempt `i`. -/
  primaryReady : Nat → Bool := fun _ => true
  /-- Outcome of `start_docker_containers` (docker-compose up plus its
  image checks and file generation, all external-collaborator calls). -/
  dockerStart : Bool × String := (true, "")
  /-- Outcome of the SSH `systemctl start mysql` on remote node `id`. -/
  sshStart : Nat → Bool × String := fun _ => (true, "")
  /-- `is_reachable()` of secondary `id` at poll attempt `i`. -/
  secReachable : Nat → Nat → Bool := fun _ _ => true
  /-- `is_reachable()` of node `id` at the single probe in `scale`'s
  convergence loop. -/
  reachableNow : Nat → Bool := fun _ => true
  /-- `check_remote_node(node)["reachable"]` for node `id`. -/
  checkReachable : Nat → Bool := fun _ => true
  /-- `check_remote_node(node)["mysql_running"]` for node `id`. -/
  checkMysqlRunning : Nat → Bool := fun _ => true
  /-- Outcome of `configure_for_group_replication` on the primary. -/
  confPrimary : Bool × String := (true, "")
  /-- Outcome of `create_cluster` on the primary. -/
  createClusterOutcome : Bool × String := (true, "")
  /-- Outcome of configuring secondary `id` (`configure_remote_node` or
  `_configure_docker_secondary`, both a mysqlsh run whose exit code and
  output the environment supplies). -/
  confSecondary : Nat → Bool × String := fun _ => (true, "")
  /-- Outcome of `_add_node_to_cluster` for node `id`. -/
  addInstanceOutcome : Nat → Bool × String := fun _ => (true, "")
  /-- Outcome of `get_cluster_status` on the primary. -/
  clusterStatus : Bool × String := (true, "")

/-- `PrimaryNodeManager.start` (`primary.py` lines 118-169): no-op success
when already running; for a systemctl primary a failing start command
aborts; otherwise poll `is_running() and is_reachable()` once per second
for 30 attempts, reporting "MySQL started but not responding" when the
bound expires (exceptions map to their handler messages). -/
def PrimaryNodeManager.start (nt : NodeType) (e : Env) : Bool × String :=
  if e.alreadyRunning then (true, "MySQL is already running")
  else
    match e.primaryExc with
    | .timeout => (false, "Timeout starting MySQL")
    | .err s => (false, "Error starting MySQL: " ++ s)
    | .nofail =>
        if nt = NodeType.local_systemctl ∧ e.startExit ≠ 0 then
          (false, "Failed to start MySQL: " ++ e.startErr)
        else if (List.range 30).any e.primaryReady then
          (true, "MySQL started successfully")
        else (false, "MySQL started but not responding")

/-- `SecondaryNodeManager.start_remote_node` (`secondary.py` lines
146-173): requires an SSH user, runs the remote start command, then
polls reachability for 30 attempts. -/
def start_remote_node (n : NodeConfig) (e : Env) : Bool × String :=
  if n.ssh_user = none then (false, "SSH user not configured")
  else
    let r := e.sshStart n.node_id
    if r.1 then
      if (List.range 30).any (e.secReachable n.node_id) then
        (true, "MySQL started successfully")
      else (false, "MySQL started but not responding")
    else (false, "Failed to start MySQL: " ++ r.2)

/-- The `results["docker"]` entry of `start_all` (`secondary.py` lines
528-539): one aggregate outcome for the docker-compose batch, plus the
container names it covers. -/
structure DockerStartResult where
  success : Bool
  message : String
  nodes : List (Option String)
  deriving DecidableEq, Repr

/-- One per-node entry of `results["remote"]["nodes"]` in `start_all`. -/
structure RemoteNodeEntry where
  host : String
  success : Bool
  message : String
  deriving DecidableEq, Repr

/-- The `results["remote"]` entry of `start_all`. -/
structure RemoteStartResult where
  success : Bool
  message : String
  nodes : List RemoteNodeEntry
  deriving DecidableEq, Repr

/-- The dictionary returned by `SecondaryNodeManager.start_all`. -/
structure SecStartResults where
  docker : DockerStartResult
  remote : RemoteStartResult
  deriving DecidableEq, Repr

/-- The loop over remote nodes in `start_all` (`secondary.py` lines
542-552): each node is started in turn; its individual outcome is
appended and any failure clears the parent `success` flag without
stopping the loop. -/
def remoteStartFold (e : Env) (acc : RemoteStartResult)
    (ns : List NodeConfig) : RemoteStartResult :=
  ns.foldl (fun acc n =>
    let r := start_remote_node n e
    { success := acc.success && r.1
      message := acc.message
      nodes := acc.nodes ++ [{ host := n.host, success := r.1, message := r.2 }] }) acc

/-- `SecondaryNodeManager.start_all` (`secondary.py` lines 521-553). -/
def start_all (cfg : ClusterConfig) (e : Env) : SecStartResults :=
  let dn := dockerNodes cfg
  let docker : DockerStartResult :=
    if dn.isEmpty then { success := true, message := "", nodes := [] }
    else
      { success := e.dockerStart.1
        message := e.dockerStart.2
        nodes := dn.map (fun n => n.container_name) }
  let remote := remoteStartFold e { success := true, message := "", nodes := [] }
    (remoteNodes cfg)
  { docker := docker, remote := remote }

/-- One step entry of the `setup_group_replication` report. -/
structure ReplStep where
  name : String
  success : Bool
  message : String
  deriving DecidableEq, Repr

/-- The dictionary returned by `setup_group_replication`
(`cluster.py` lines 278-350); `cluster_status` is only present when the
per-node loop was reached. -/
structure ReplResults where
  success : Bool
  steps : List ReplStep
  cluster_status : Option String
  deriving DecidableEq, Repr

/-- The per-secondary loop of `setup_group_replication` (`cluster.py`
lines 314-344): configure each secondary (remote or Docker — either way
one administrative-channel outcome) and, only if that succeeded, add it
to the cluster; failures are logged but do not clear the parent
`success` flag. -/
def replSecondarySteps (e : Env) (ns : List NodeConfig)
    (acc : List ReplStep) : List ReplStep :=
  ns.foldl (fun acc n =>
    let c := e.confSecondary n.node_id
    let acc := acc ++
      [{ name := "configure_secondary_" ++ toString n.node_id
         success := c.1, message := c.2 }]
    if c.1 then
      let a := e.addInstanceOutcome n.node_id
      acc ++ [{ name := "add_secondary_" ++ toString n.node_id
                success := a.1, message := a.2 }]
    else acc) acc

/-- `ClusterBridge.setup_group_replication` (`cluster.py` lines 278-350). -/
def setup_group_replication (cfg : ClusterConfig) (e : Env) : ReplResults :=
  let c := e.confPrimary
  let steps1 := [{ name := "configure_primary", success := c.1, message := c.2 : ReplStep }]
  if c.1 = false then { success := false, steps := steps1, cluster_status := none }
  else
    let k := e.createClusterOutcome
    let steps2 := steps1 ++
      [{ name := "create_cluster", success := k.1, message := k.2 : ReplStep }]
    if k.1 = false then { success := false, steps := steps2, cluster_status := none }
    else
      let steps3 := replSecondarySteps e cfg.secondaries steps2
      let st := e.clusterStatus
      { success := true
        steps := steps3
        cluster_status := some (if st.1 then st.2 else "Unable to get status") }

/-- The dictionary returned by `ClusterBridge.start` (`cluster.py`
lines 185-236). -/
structure StartResults where
  success : Bool
  primary : Option (Bool × String)
  secondaries : Option SecStartResults
  replication : Option ReplResults
  deriving DecidableEq, Repr

/-- `ClusterBridge.start` (`cluster.py` lines 185-236): start the
primary; on failure return immediately with `secondaries` and
`replication` still `None`; otherwise (after the settling sleep) start
all secondaries, mark the root failed if either group failed, and
optionally run replication setup.  `none` models the `ValueError` the
bridge constructor raises when the configuration has no primary. -/
def ClusterBridge.start (cfg : ClusterConfig) (setup_replication : Bool)
    (e : Env) : Option StartResults :=
  match cfg.primary with
  | none => none
  | some p =>
      let pr := PrimaryNodeManager.start p.node_type e
      if pr.1 = false then
        some { success := false, primary := some (false, pr.2)
               secondaries := none, replication := none }
      else
        let sec := start_all cfg e
        let ok1 := sec.docker.success && sec.remote.success
        if setup_replication then
          let repl := setup_group_replication cfg e
          some { success := ok1 && repl.success, primary := some (true, pr.2)
                 secondaries := some sec, replication := some repl }
        else
          some { success := ok1, primary := some (true, pr.2)
                 secondaries := some sec, replication := none }

/-- Result of `ClusterBridge.remove_secondary` (`cluster.py` lines
545-608): the returned `(success, message)` pair, the configuration
afterwards, and whether `save()` was called. -/
structure RemoveResult where
  ok : Bool
  message : String
  config : ClusterConfig
  saved : Bool
  deriving DecidableEq, Repr

/-- `ClusterBridge.remove_secondary` (`cluster.py` lines 545-608): find
the first secondary with the given id (failing with "not found" before
touching anything else); then build the removal script from
`config.primary` (an uncaught `AttributeError`, modelled `none`, when
the primary is absent), fire the mysqlsh removal and the `docker rm`
(both with their results discarded / exceptions swallowed), remove the
node from the list, and save. -/
def ClusterBridge.remove_secondary (cfg : ClusterConfig) (node_id : Nat) :
    Option RemoveResult :=
  match cfg.secondaries.find? (fun n => n.node_id = node_id) with
  | none =>
      some { ok := false
             message := "Node " ++ toString node_id ++ " not found"
             config := cfg, saved := false }
  | some node =>
      match cfg.primary with
      | none => none
      | some _ =>
          some { ok := true
                 message := "Removed node " ++ toString node_id
                 config := { cfg with secondaries := eraseFirst cfg.secondaries node }
                 saved := true }

/-- Result of `ClusterBridge.add_remote_secondary`: the `(success,
message)` pair, the configuration afterwards, and whether `save()` was
called. -/
structure AddRemoteResult where
  ok : Bool
  message : String
  config : ClusterConfig
  saved : Bool
  deriving DecidableEq, Repr

/-- `ClusterBridge.add_remote_secondary` (`cluster.py` lines 494-543):
append the new remote node to the configuration first, then probe
reachability, start MySQL if needed, configure it and add it to the
cluster; each failure returns immediately — without removing the node
just appended and without saving.  Saving happens only on full success. -/
def ClusterBridge.add_remote_secondary (cfg : ClusterConfig)
    (host ssh_user : String) (ssh_key_path : Option String) (e : Env) :
    AddRemoteResult :=
  let r := cfg.add_secondary (some host) (some ssh_user) ssh_key_path
    (some NodeType.remote_machine)
  let node := r.1
  let cfg1 := r.2
  if e.checkReachable node.node_id = false then
    { ok := false, message := "Cannot reach " ++ host, config := cfg1, saved := false }
  else
    let started :=
      if e.checkMysqlRunning node.node_id then (true, "")
      else start_remote_node node e
    if started.1 = false then
      { ok := false
        message := "Cannot start MySQL on " ++ host ++ ": " ++ started.2
        config := cfg1, saved := false }
    else
      let c := e.confSecondary node.node_id
      if c.1 = false then
        { ok := false
          message := "Cannot configure MySQL on " ++ host ++ ": " ++ c.2
          config := cfg1, saved := false }
      else
        let a := e.addInstanceOutcome node.node_id
        if a.1 = false then
          { ok := false
            message := "Cannot add " ++ host ++ " to cluster: " ++ a.2
            config := cfg1, saved := false }
        else
          { ok := true
            message := "Successfully added " ++ host ++ " as secondary node"
            config := cfg1, saved := true }

/-- Repeatedly call `add_secondary(node_type=DOCKER_CONTAINER)` — the
increase loop of `scale_docker_nodes` (`secondary.py` lines 644-648). -/
def addDockerSecondaries : ClusterConfig → Nat → ClusterConfig
  | cfg, 0 => cfg
  | cfg, n + 1 =>
      addDockerSecondaries (cfg.add_secondary none none none
        (some NodeType.docker_container)).2 n

/-- The decrease loop of `scale_docker_nodes` (`secondary.py` lines
649-655): take a snapshot of the Docker nodes, then `pop()` from its end
`m` times, each time `list.remove`-ing that node from the secondaries. -/
def removeDockerSecondaries (cfg : ClusterConfig) (m : Nat) : ClusterConfig :=
  ((dockerNodes cfg).reverse.take m).foldl
    (fun c n => { c with secondaries := eraseFirst c.secondaries n }) cfg

/-- `SecondaryNodeManager.scale_docker_nodes` (`secondary.py` lines
629-663): no-op success when the Docker count already matches; otherwise
mutate the topology to the target, regenerate the compose manifest
(external) and (re)start the containers, reporting their outcome. -/
def scale_docker_nodes (cfg : ClusterConfig) (target_count : Nat) (e : Env) :
    (Bool × String) × ClusterConfig :=
  let current := (dockerNodes cfg).length
  if target_count = current then
    ((true, "Already have " ++ toString current ++ " Docker nodes"), cfg)
  else
    let cfg1 :=
      if target_count > current then addDockerSecondaries cfg (target_count - current)
      else removeDockerSecondaries cfg (current - target_count)
    if e.dockerStart.1 then
      ((true, "Scaled to " ++ toString target_count ++ " Docker nodes"), cfg1)
    else ((false, e.dockerStart.2), cfg1)

/-- An administrative call issued by `scale`'s membership-convergence
loop: instrumentation of the two effects the loop can perform. -/
inductive AdminCall where
  | configure (node_id : Nat)
  | addInstance (node_id : Nat)
  deriving DecidableEq, Repr

/-- The "add new nodes to cluster" loop of `ClusterBridge.scale`
(`cluster.py` lines 484-489): for every secondary that probes reachable,
configure it and — only if configuring succeeded — add it to the
cluster.  Returns the administrative calls performed. -/
def scaleConvergeCalls (cfg : ClusterConfig) (e : Env) : List AdminCall :=
  cfg.secondaries.foldl (fun acc n =>
    if e.reachableNow n.node_id = false then acc
    else
      let acc := acc ++ [AdminCall.configure n.node_id]
      if (e.confSecondary n.node_id).1 then acc ++ [AdminCall.addInstance n.node_id]
      else acc) []

/-- The dictionary returned by `ClusterBridge.scale`. -/
structure ScaleResult where
  success : Bool
  previous_count : Nat
  target_count : Int
  message : String
  current_count : Nat
  deriving DecidableEq, Repr

/-- `ClusterBridge.scale` (`cluster.py` lines 451-492): compute
`docker_target = max(0, target - remote_count)`, delegate to
`scale_docker_nodes`, and run the membership-convergence loop only when
that succeeded *and* `docker_target` still exceeds the (post-mutation)
Docker count.  Returns the report, the updated configuration, and the
administrative calls the convergence loop performed. -/
def ClusterBridge.scale (cfg : ClusterConfig) (target : Int) (e : Env) :
    ScaleResult × ClusterConfig × List AdminCall :=
  let previous := cfg.secondaries.length
  let remote_count := (remoteNodes cfg).length
  let docker_target : Int := max 0 (target - remote_count)
  let r := scale_docker_nodes cfg docker_target.toNat e
  let cfg1 := r.2
  let calls :=
    if r.1.1 ∧ docker_target.toNat > (dockerNodes cfg1).length then
      scaleConvergeCalls cfg1 e
    else []
  ({ success := r.1.1
     previous_count := previous
     target_count := target
     message := r.1.2
     current_count := cfg1.secondaries.length }, cfg1, calls)

/-- Outcome of `dba.configureInstance` as reported over the
administrative channel.  Modelled from the spec: the replication
backend's administrative interface is an external collaborator (spec
section 6); its "already configured" outcome on a node that was
configured before is the idempotent case of spec section 4.4. -/
inductive ConfigureOutcome where
  | ok
  | alreadyConfigured
  | failed (msg : String)
  deriving DecidableEq, Repr

/-- Modelled from the spec: the backend's `configureInstance` on a node
whose configured-state is `s` reports success the first time and
"already configured" thereafter, leaving the node configured. -/
def configureInstance (s : Bool) : ConfigureOutcome × Bool :=
  if s then (.alreadyConfigured, true) else (.ok, true)

/-- Exit code of the mysqlsh script embedded in
`configure_remote_node` (`secondary.py` lines 209-222) and
`_configure_docker_secondary` (`cluster.py` lines 357-370): the script
catches an "already configured" error and returns normally (exit 0);
any other error is rethrown, making mysqlsh exit nonzero. -/
def configureScriptExit : ConfigureOutcome → Nat
  | .ok => 0
  | .alreadyConfigured => 0
  | .failed _ => 1

/-- `SecondaryNodeManager.configure_remote_node` (`secondary.py` lines
196-235) driven by the backend outcome: the Python function returns
success exactly when the mysqlsh process exits 0. -/
def configure_remote_node (o : ConfigureOutcome) : Bool :=
  configureScriptExit o = 0

/-- One configure invocation against a node with configured-state `s`:
the Python-level result together with the node's new state. -/
def configureStep (s : Bool) : Bool × Bool :=
  let r := configureInstance s
  (configure_remote_node r.1, r.2)

/-- `get_all_nodes` (`config.py` lines 175-181): the primary (when
present) followed by the secondaries. -/
def ClusterConfig.get_all_nodes (cfg : ClusterConfig) : List NodeConfig :=
  (match cfg.primary with | none => [] | some p => [p]) ++ cfg.secondaries

/-! ### Concrete instances used to exercise the definitions -/

/-- The primary node built by `create_default_config` (`config.py` lines
387-397) for a systemctl-managed primary (hostname is environmental). -/
def primaryNodeW : NodeConfig :=
  NodeConfig.post_init
    { node_id := 1
      hostname := "host-primary"
      role := NodeRole.primary
      node_type := NodeType.local_systemctl
      host := "127.0.0.1"
      port := 3306
      server_id := some 1 }

/-- A cluster configuration holding just the default primary. -/
def cfgP : ClusterConfig := { primary := some primaryNodeW }

/-- `cfgP` after adding one Docker secondary (id 2). -/
def cfgD1 : ClusterConfig :=
  (cfgP.add_secondary none none none (some NodeType.docker_container)).2

/-- `cfgP` after adding two Docker secondaries (ids 2 and 3). -/
def cfgD2 : ClusterConfig :=
  (cfgD1.add_secondary none none none (some NodeType.docker_container)).2

/-- `cfgP` after adding three remote secondaries (ids 2, 3 and 4). -/
def cfgR : ClusterConfig :=
  (((cfgP.add_secondary (some "10.0.0.1") (some "mysql") none
      (some NodeType.remote_machine)).2.add_secondary (some "10.0.0.2") (some "mysql") none
      (some NodeType.remote_machine)).2.add_secondary (some "10.0.0.3") (some "mysql") none
      (some NodeType.remote_machine)).2

/-- `cfgP` after adding one remote and one Docker secondary (the
save/load scenario of the spec). -/
def cfgMix : ClusterConfig :=
  ((cfgP.add_secondary (some "192.168.1.10") (some "mysql")
      (some "/home/mysql/.ssh/id_rsa") (some NodeType.remote_machine)).2.add_secondary
    none none none (some NodeType.docker_container)).2

/-- The all-defaults environment: every external call succeeds. -/
def env0 : Env := {}

/-- Environment in which the primary's readiness poll never succeeds. -/
def envPollFail : Env := { primaryReady := fun _ => false }

/-- Environment in which the remote host is unreachable. -/
def envUnreach : Env := { checkReachable := fun _ => false }

/-- Environment in which the SSH start command fails on node 3 only. -/
def envSsh3 : Env :=
  { sshStart := fun id => if id = 3 then (false, "ssh refused") else (true, "") }

/-! ### Helper lemmas -/

lemma eraseFirst_length_of_mem [DecidableEq α] {l : List α} {a : α}
    (h : a ∈ l) : (eraseFirst l a).length + 1 = l.length := by
  induction l with
  | nil => cases h
  | cons x xs ih =>
      by_cases hx : x = a
      · simp [eraseFirst, hx]
      · have hm : a ∈ xs := by
          rcases List.mem_cons.mp h with h1 | h1
          · exact absurd h1.symm hx
          · exact h1
        simp [eraseFirst, hx, ih hm]

lemma filter_eraseFirst_of_not [DecidableEq α] {p : α → Bool} {a : α}
    (l : List α) (h : p a = false) :
    (eraseFirst l a).filter p = l.filter p := by
  induction l with
  | nil => rfl
  | cons x xs ih =>
      by_cases hx : x = a
      · subst hx; simp [eraseFirst, List.filter_cons, h]
      · simp only [eraseFirst, if_neg hx, List.filter_cons]
        cases hpx : p x <;> simp [hpx, ih]

lemma add_secondary_snd (cfg : ClusterConfig) (h v k : Option String)
    (t : Option NodeType) :
    (cfg.add_secondary h v k t).2 =
      { cfg with secondaries :=
          cfg.secondaries ++ [(cfg.add_secondary h v k t).1] } := rfl

lemma add_secondary_primary (cfg : ClusterConfig) (h v k : Option String)
    (t : Option NodeType) :
    (cfg.add_secondary h v k t).2.primary = cfg.primary := rfl

lemma add_secondary_node_id (cfg : ClusterConfig) (h v k : Option String)
    (t : Option NodeType) :
    (cfg.add_secondary h v k t).1.node_id = cfg.secondaries.length + 2 := by
  unfold ClusterConfig.add_secondary
  dsimp only
  split <;> simp [NodeConfig.post_init] <;> split <;> simp

lemma post_init_node_type (n : NodeConfig) :
    n.post_init.node_type = n.node_type := by
  unfold NodeConfig.post_init
  dsimp only
  split <;> split <;> simp

lemma add_docker_node_type (cfg : ClusterConfig) :
    (cfg.add_secondary none none none (some NodeType.docker_container)).1.node_type =
      NodeType.docker_container := by
  unfold ClusterConfig.add_secondary
  simp [post_init_node_type]

lemma remoteNodes_addDockerSecondaries (cfg : ClusterConfig) (n : Nat) :
    remoteNodes (addDockerSecondaries cfg n) = remoteNodes cfg := by
  induction n generalizing cfg with
  | zero => rfl
  | succ m ih =>
      rw [addDockerSecondaries, ih, add_secondary_snd]
      unfold remoteNodes
      have ht := add_docker_node_type cfg
      simp [List.filter_append, ht]

lemma remoteNodes_removeDockerSecondaries (cfg : ClusterConfig) (m : Nat) :
    remoteNodes (removeDockerSecondaries cfg m) = remoteNodes cfg := by
  unfold removeDockerSecondaries
  have hsub : ∀ n ∈ (dockerNodes cfg).reverse.take m,
      n.node_type = NodeType.docker_container := by
    intro n hn
    have hmem : n ∈ dockerNodes cfg := by
      have := List.mem_of_mem_take hn
      exact List.mem_reverse.mp this
    unfold dockerNodes at hmem
    exact of_decide_eq_true (List.mem_filter.mp hmem).2
  generalize (dockerNodes cfg).reverse.take m = S at hsub
  induction S generalizing cfg with
  | nil => rfl
  | cons x xs ih =>
      have hx := hsub x (List.mem_cons_self x xs)
      rw [List.foldl_cons]
      rw [ih _ (fun n hn => hsub n (List.mem_cons_of_mem x hn))]
      unfold remoteNodes
      exact filter_eraseFirst_of_not _ (by simp [hx])

lemma remoteStartFold_success (e : Env) (acc : RemoteStartResult)
    (ns : List NodeConfig) :
    (remoteStartFold e acc ns).success =
      (acc.success && ns.all fun n => (start_remote_node n e).1) := by
  induction ns generalizing acc with
  | nil => simp [remoteStartFold]
  | cons x xs ih =>
      rw [remoteStartFold, List.foldl_cons]
      rw [show ∀ a ys, List.foldl _ a ys = remoteStartFold e a ys from fun _ _ => rfl, ih]
      simp [List.all_cons, Bool.and_assoc]

lemma remoteStartFold_nodes (e : Env) (acc : RemoteStartResult)
    (ns : List NodeConfig) :
    (remoteStartFold e acc ns).nodes =
      acc.nodes ++ ns.map (fun n =>
        { host := n.host
          success := (start_remote_node n e).1
          message := (start_remote_node n e).2 : RemoteNodeEntry }) := by
  induction ns generalizing acc with
  | nil => simp [remoteStartFold]
  | cons x xs ih =>
      rw [remoteStartFold, List.foldl_cons]
      rw [show ∀ a ys, List.foldl _ a ys = remoteStartFold e a ys from fun _ _ => rfl, ih]
      simp

lemma start_all_remote_success (cfg : ClusterConfig) (e : Env) :
    (start_all cfg e).remote.success =
      (remoteNodes cfg).all (fun n => (start_remote_node n e).1) := by
  unfold start_all
  dsimp only
  rw [remoteStartFold_success]
  simp

lemma start_all_remote_nodes (cfg : ClusterConfig) (e : Env) :
    (start_all cfg e).remote.nodes =
      (remoteNodes cfg).map (fun n =>
        { host := n.host
          success := (start_remote_node n e).1
          message := (start_remote_node n e).2 : RemoteNodeEntry }) := by
  unfold start_all
  dsimp only
  rw [remoteStartFold_nodes]
  simp

lemma roleOfValue_value (r : NodeRole) :
    NodeRole.ofValue r.value = some r := by cases r <;> rfl

lemma typeOfValue_value (t : NodeType) :
    NodeType.ofValue t.value = some t := by cases t <;> rfl

lemma from_dict_to_dict (n : NodeConfig) :
    NodeConfig.from_dict n.to_dict = some n.post_init := by
  unfold NodeConfig.from_dict NodeConfig.to_dict
  rw [roleOfValue_value, typeOfValue_value]

lemma fromDictList_map_to_dict (l : List NodeConfig)
    (h : ∀ n ∈ l, n.post_init = n) :
    fromDictList (l.map NodeConfig.to_dict) = some l := by
  induction l with
  | nil => rfl
  | cons x xs ih =>
      rw [List.map_cons, fromDictList, from_dict_to_dict, h x (List.mem_cons_self x xs),
        ih (fun n hn => h n (List.mem_cons_of_mem x hn))]

/-! ### Claims -/

/-- Claim C4: for every topology and every id such that no secondary has
that id, `remove_secondary(id)` returns the "Node {id} not found"
failure and leaves the topology completely unchanged — the returned
configuration is the input configuration, and nothing is saved. -/
theorem remove_secondary_missing_id_noop (cfg : ClusterConfig) (nid : Nat)
    (h : ∀ n ∈ cfg.secondaries, n.node_id ≠ nid) :
    ClusterBridge.remove_secondary cfg nid =
      some { ok := false
             message := "Node " ++ toString nid ++ " not found"
             config := cfg
             saved := false } := by
  unfold ClusterBridge.remove_secondary
  have hf : cfg.secondaries.find? (fun n => n.node_id = nid) = none := by
    rw [List.find?_eq_none]
    intro x hx
    simp [h x hx]
  rw [hf]

/-- Claim C4 witness: removing id 99 from the two-secondary topology
fails with "not found" and returns the topology untouched. -/
theorem remove_secondary_missing_id_noop_witness :
    ClusterBridge.remove_secondary cfgD2 99 =
      some { ok := false
             message := "Node " ++ toString 99 ++ " not found"
             config := cfgD2
             saved := false } :=
  remove_secondary_missing_id_noop cfgD2 99 (by decide)

/-- Claim C8: invoking the configure-instance operation twice against a
node yields success both times, whatever the node's initial configured
state: the mysqlsh script absorbs the backend's "already configured"
outcome (exit code 0), so the Python call reports success, not failure. -/
theorem configure_instance_idempotent :
    ∀ s : Bool, (configureStep s).1 = true ∧
      (configureStep (configureStep s).2).1 = true := by decide

lemma remove_secondary_found {cfg : ClusterConfig} {nid : Nat}
    {node p : NodeConfig}
    (hf : cfg.secondaries.find? (fun n => n.node_id = nid) = some node)
    (hp : cfg.primary = some p) :
    ClusterBridge.remove_secondary cfg nid =
      some { ok := true
             message := "Removed node " ++ toString nid
             config := { cfg with secondaries := eraseFirst cfg.secondaries node }
             saved := true } := by
  unfold ClusterBridge.remove_secondary
  rw [hf, hp]

/-- Claim C9: for every topology that owns a primary, calling
`add_secondary` and then `remove_secondary` with the id of the returned
descriptor succeeds and restores the prior secondary count. -/
theorem add_then_remove_restores_count (cfg : ClusterConfig)
    (h v k : Option String) (t : Option NodeType) (p : NodeConfig)
    (hp : cfg.primary = some p) :
    ∃ res, ClusterBridge.remove_secondary (cfg.add_secondary h v k t).2
        (cfg.add_secondary h v k t).1.node_id = some res ∧
      res.ok = true ∧
      res.config.secondaries.length = cfg.secondaries.length := by
  have hsnd : (cfg.add_secondary h v k t).2.secondaries =
      cfg.secondaries ++ [(cfg.add_secondary h v k t).1] := rfl
  have hsome : ((cfg.secondaries ++ [(cfg.add_secondary h v k t).1]).find?
      (fun n => n.node_id = (cfg.add_secondary h v k t).1.node_id)).isSome := by
    rw [List.find?_isSome]
    exact ⟨(cfg.add_secondary h v k t).1, by simp, by simp⟩
  obtain ⟨m, hm⟩ := Option.isSome_iff_exists.mp hsome
  have hmem : m ∈ cfg.secondaries ++ [(cfg.add_secondary h v k t).1] :=
    List.mem_of_find?_eq_some hm
  have hlen := eraseFirst_length_of_mem hmem
  have hf : (cfg.add_secondary h v k t).2.secondaries.find?
      (fun n => n.node_id = (cfg.add_secondary h v k t).1.node_id) = some m := by
    rw [hsnd]; exact hm
  have hp2 : (cfg.add_secondary h v k t).2.primary = some p := by
    rw [add_secondary_primary, hp]
  refine ⟨_, remove_secondary_found hf hp2, rfl, ?_⟩
  dsimp only
  rw [hsnd]
  have : (cfg.secondaries ++ [(cfg.add_secondary h v k t).1]).length =
      cfg.secondaries.length + 1 := by simp
  omega

/-- Claim C9 witness: adding a Docker secondary to the one-secondary
topology and removing it by the returned id restores the count. -/
theorem add_then_remove_restores_count_witness :
    ∃ res, ClusterBridge.remove_secondary
        (cfgD1.add_secondary none none none (some NodeType.docker_container)).2
        (cfgD1.add_secondary none none none (some NodeType.docker_container)).1.node_id =
          some res ∧
      res.ok = true ∧
      res.config.secondaries.length = cfgD1.secondaries.length :=
  add_then_remove_restores_count cfgD1 none none none
    (some NodeType.docker_container) primaryNodeW rfl

/-- Claim C5: for every cluster configuration (all of whose nodes carry
the `__post_init__` normalisation Python guarantees at construction),
loading the document produced by saving it reproduces it exactly —
every cluster-wide setting and every field of every node descriptor,
mixed RemoteSSH/Container topologies included. -/
theorem save_load_roundtrip (c : ClusterConfig)
    (hst : ∀ n ∈ c.get_all_nodes, n.post_init = n) :
    ClusterConfig.load c.save = some c := by
  have hs : ∀ n ∈ c.secondaries, n.post_init = n := by
    intro n hn
    exact hst n (by unfold ClusterConfig.get_all_nodes; exact List.mem_append_right _ hn)
  cases hpc : c.primary with
  | none =>
      have h1 : ClusterConfig.load c.save = some { c with primary := none } := by
        unfold ClusterConfig.load ClusterConfig.save
        dsimp only
        rw [hpc]
        simp only [Option.map_none']
        rw [fromDictList_map_to_dict _ hs]
      rw [h1, ← hpc]
  | some p =>
      have hpp : p.post_init = p := by
        refine hst p ?_
        unfold ClusterConfig.get_all_nodes
        rw [hpc]
        exact List.mem_append_left _ (by simp)
      have h1 : ClusterConfig.load c.save = some { c with primary := some p } := by
        unfold ClusterConfig.load ClusterConfig.save
        dsimp only
        rw [hpc]
        simp only [Option.map_some']
        rw [from_dict_to_dict, hpp, fromDictList_map_to_dict _ hs]
        simp only [Option.map_some']
      rw [h1, ← hpc]

/-- Claim C5 witness: the topology with one RemoteSSH and one Container
secondary round-trips through save/load exactly. -/
theorem save_load_roundtrip_witness :
    ClusterConfig.load cfgMix.save = some cfgMix :=
  save_load_roundtrip cfgMix (by decide)

/-- Claim C2: whenever the primary's start fails, `start` aborts
immediately — the root report is failed, carries the primary step's
failure detail, and the secondaries (and replication) entries stay
`None`, i.e. no secondary start is attempted; and when the failure is
the 30-attempt readiness poll expiring (not already running, no
exception, no failing systemctl command), the detail is the distinct
message "MySQL started but not responding". -/
theorem primary_start_failure_aborts (cfg : ClusterConfig) (p : NodeConfig)
    (e : Env) (sr : Bool) (hp : cfg.primary = some p) :
    ((PrimaryNodeManager.start p.node_type e).1 = false →
      ClusterBridge.start cfg sr e =
        some { success := false
               primary := some (false, (PrimaryNodeManager.start p.node_type e).2)
               secondaries := none
               replication := none }) ∧
    (e.alreadyRunning = false → e.primaryExc = ExcOutcome.nofail →
      (p.node_type = NodeType.local_systemctl → e.startExit = 0) →
      (∀ i < 30, e.primaryReady i = false) →
      PrimaryNodeManager.start p.node_type e =
        (false, "MySQL started but not responding")) := by
  constructor
  · intro hfail
    unfold ClusterBridge.start
    rw [hp]
    dsimp only
    rw [hfail]
    rfl
  · intro hrun hexc hexit hready
    unfold PrimaryNodeManager.start
    rw [hrun, hexc]
    dsimp only
    have hcond : ¬(p.node_type = NodeType.local_systemctl ∧ e.startExit ≠ 0) := by
      rintro ⟨h1, h2⟩
      exact h2 (hexit h1)
    rw [if_neg hcond]
    have hany : (List.range 30).any e.primaryReady = false := by
      rw [List.any_eq_false]
      intro i hi
      simp [hready i (List.mem_range.mp hi)]
    rw [hany]
    simp

/-- Claim C2 witness: with the primary's readiness poll never
succeeding, `start` returns the failed root report with the distinct
message and no secondary entries. -/
theorem primary_start_failure_aborts_witness :
    ClusterBridge.start cfgP true envPollFail =
      some { success := false
             primary := some (false, "MySQL started but not responding")
             secondaries := none
             replication := none } := by
  have h := primary_start_failure_aborts cfgP primaryNodeW envPollFail true rfl
  have h2 := h.2 rfl rfl (fun _ => rfl) (fun i _ => rfl)
  have h1 := h.1 (by rw [h2])
  rw [h1, h2]

/-- Claim C6: when the primary starts successfully and some remote
secondary fails to start, every remote secondary nevertheless receives
its own start attempt whose individual outcome appears, in order, in
the report; the parent remote-secondaries report is marked failed, the
root report is failed, and the primary's entry remains succeeded. -/
theorem secondary_failure_isolated (cfg : ClusterConfig) (p : NodeConfig)
    (e : Env) (sr : Bool) (hp : cfg.primary = some p)
    (hok : (PrimaryNodeManager.start p.node_type e).1 = true)
    (hfail : ∃ n ∈ remoteNodes cfg, (start_remote_node n e).1 = false) :
    ∃ res, ClusterBridge.start cfg sr e = some res ∧
      res.success = false ∧
      res.primary = some (true, (PrimaryNodeManager.start p.node_type e).2) ∧
      ∃ secr, res.secondaries = some secr ∧
        secr.remote.success = false ∧
        secr.remote.nodes = (remoteNodes cfg).map (fun n =>
          { host := n.host
            success := (start_remote_node n e).1
            message := (start_remote_node n e).2 }) := by
  have hrs : (start_all cfg e).remote.success = false := by
    rw [start_all_remote_success]
    obtain ⟨n, hn, hf⟩ := hfail
    rw [List.all_eq_false]
    exact ⟨n, hn, by simp [hf]⟩
  have hroot : ∀ b : Bool,
      (b && ((start_all cfg e).docker.success && (start_all cfg e).remote.success)) = false := by
    intro b
    rw [hrs]
    simp
  unfold ClusterBridge.start
  rw [hp]
  dsimp only
  rw [hok]
  cases sr with
  | false =>
      refine ⟨{ success := (start_all cfg e).docker.success && (start_all cfg e).remote.success
                primary := some (true, (PrimaryNodeManager.start p.node_type e).2)
                secondaries := some (start_all cfg e)
                replication := none }, if_neg (by simp), ?_, rfl,
              start_all cfg e, rfl, hrs, start_all_remote_nodes cfg e⟩
      dsimp only
      rw [hrs]
      simp
  | true =>
      refine ⟨{ success := ((start_all cfg e).docker.success && (start_all cfg e).remote.success)
                  && (setup_group_replication cfg e).success
                primary := some (true, (PrimaryNodeManager.start p.node_type e).2)
                secondaries := some (start_all cfg e)
                replication := some (setup_group_replication cfg e) }, if_neg (by simp), ?_, rfl,
              start_all cfg e, rfl, hrs, start_all_remote_nodes cfg e⟩
      dsimp only
      rw [hrs]
      simp

/-- Claim C6 witness: with three remote secondaries and the SSH start
failing on node 3 only, the report lists all three individual outcomes,
the remote group and the root are failed, and the primary entry stays
succeeded. -/
theorem secondary_failure_isolated_witness :
    ∃ res, ClusterBridge.start cfgR true envSsh3 = some res ∧
      res.success = false ∧
      res.primary = some (true,
        (PrimaryNodeManager.start primaryNodeW.node_type envSsh3).2) ∧
      ∃ secr, res.secondaries = some secr ∧
        secr.remote.success = false ∧
        secr.remote.nodes = (remoteNodes cfgR).map (fun n =>
          { host := n.host
            success := (start_remote_node n envSsh3).1
            message := (start_remote_node n envSsh3).2 }) :=
  secondary_failure_isolated cfgR primaryNodeW envSsh3 true rfl rfl
    ⟨((cfgP.add_secondary (some "10.0.0.1") (some "mysql") none
        (some NodeType.remote_machine)).2.add_secondary (some "10.0.0.2") (some "mysql") none
        (some NodeType.remote_machine)).1,
      by decide, by decide⟩

lemma remoteNodes_scale_docker_nodes (cfg : ClusterConfig) (tc : Nat) (e : Env) :
    remoteNodes (scale_docker_nodes cfg tc e).2 = remoteNodes cfg := by
  unfold scale_docker_nodes
  dsimp only
  split
  · rfl
  · split
    · split
      · exact remoteNodes_addDockerSecondaries cfg _
      · exact remoteNodes_removeDockerSecondaries cfg _
    · split
      · exact remoteNodes_addDockerSecondaries cfg _
      · exact remoteNodes_removeDockerSecondaries cfg _

/-- Claim C7: `scale` reconciles only Container nodes against
`dockerTarget = max(0, target - remoteCount)`: for every target the
RemoteSSH secondaries of the resulting topology are exactly those of
the input (never added or removed), and whenever that Container target
equals the current Container count the operation is a no-op success
returning the topology unchanged. -/
theorem scale_counts_only_remotes (cfg : ClusterConfig) (target : Int) (e : Env) :
    remoteNodes (ClusterBridge.scale cfg target e).2.1 = remoteNodes cfg ∧
    ((max 0 (target - ((remoteNodes cfg).length : Int))).toNat =
        (dockerNodes cfg).length →
      (ClusterBridge.scale cfg target e).1.success = true ∧
      (ClusterBridge.scale cfg target e).2.1 = cfg) := by
  constructor
  · show remoteNodes (scale_docker_nodes cfg
      (max 0 (target - ((remoteNodes cfg).length : Int))).toNat e).2 = remoteNodes cfg
    exact remoteNodes_scale_docker_nodes cfg _ e
  · intro hdt
    have hno : scale_docker_nodes cfg
        (max 0 (target - ((remoteNodes cfg).length : Int))).toNat e =
        ((true, "Already have " ++ toString (dockerNodes cfg).length ++ " Docker nodes"),
          cfg) := by
      unfold scale_docker_nodes
      rw [if_pos hdt]
    constructor
    · show (scale_docker_nodes cfg
        (max 0 (target - ((remoteNodes cfg).length : Int))).toNat e).1.1 = true
      rw [hno]
    · show (scale_docker_nodes cfg
        (max 0 (target - ((remoteNodes cfg).length : Int))).toNat e).2 = cfg
      rw [hno]

/-- Claim C7 witness: scaling the one-Docker-secondary topology to
target 1 (Container target 1 = current Container count) is a no-op
success leaving the topology unchanged, with the remote set preserved. -/
theorem scale_counts_only_remotes_witness :
    remoteNodes (ClusterBridge.scale cfgD1 1 env0).2.1 = remoteNodes cfgD1 ∧
    ((ClusterBridge.scale cfgD1 1 env0).1.success = true ∧
      (ClusterBridge.scale cfgD1 1 env0).2.1 = cfgD1) :=
  ⟨(scale_counts_only_remotes cfgD1 1 env0).1,
    (scale_counts_only_remotes cfgD1 1 env0).2 (by decide)⟩

/-- Claim C10: `add_remote_secondary` is not atomic on failure — for
every environment in which the call returns failure (unreachable host,
failed start, failed configure, or failed add-instance), the newly
created RemoteSSH node remains appended to the secondary sequence (no
rollback) and the configuration was not saved; saving happens only on
the success path. -/
theorem add_remote_secondary_not_rolled_back (cfg : ClusterConfig)
    (host ssh_user : String) (ssh_key_path : Option String) (e : Env) :
    (ClusterBridge.add_remote_secondary cfg host ssh_user ssh_key_path e).config.secondaries =
      cfg.secondaries ++
        [(cfg.add_secondary (some host) (some ssh_user) ssh_key_path
          (some NodeType.remote_machine)).1] ∧
    ((ClusterBridge.add_remote_secondary cfg host ssh_user ssh_key_path e).ok = false →
      (ClusterBridge.add_remote_secondary cfg host ssh_user ssh_key_path e).saved = false) := by
  unfold ClusterBridge.add_remote_secondary
  dsimp only
  constructor
  · repeat' split
    all_goals rfl
  · repeat' split
    all_goals intro h
    all_goals first
      | rfl
      | simp at h

/-- Claim C10 witness: adding a remote secondary whose host is
unreachable fails, yet the node stays appended and nothing is saved. -/
theorem add_remote_secondary_not_rolled_back_witness :
    (ClusterBridge.add_remote_secondary cfgP "192.168.1.50" "mysql" none
        envUnreach).config.secondaries =
      cfgP.secondaries ++
        [(cfgP.add_secondary (some "192.168.1.50") (some "mysql") none
          (some NodeType.remote_machine)).1] ∧
    (ClusterBridge.add_remote_secondary cfgP "192.168.1.50" "mysql" none
      envUnreach).saved = false :=
  ⟨(add_remote_secondary_not_rolled_back cfgP "192.168.1.50" "mysql" none envUnreach).1,
    (add_remote_secondary_not_rolled_back cfgP "192.168.1.50" "mysql" none envUnreach).2
      (by decide)⟩

/-- Claim C1 (code bug): the uniqueness invariant is violated by the
code.  From the topology with primary id 1 and Docker secondaries ids
[2, 3], `remove_secondary(2)` succeeds, and the next `add_secondary`
assigns id `len(secondaries) + 2 = 3`, colliding with the surviving
secondary: the secondary id sequence becomes [3, 3]. -/
theorem remove_then_add_duplicates_id :
    (ClusterBridge.remove_secondary cfgD2 2).map (fun res =>
      (res.ok,
        ((res.config.add_secondary none none none
          (some NodeType.docker_container)).2.secondaries.map (fun n => n.node_id)))) =
      some (true, [3, 3]) := by decide

/-- Claim C3 (code bug): after a successful increase no
membership-convergence call is made.  Scaling the one-Docker-secondary
topology to 2 succeeds and brings the Docker count to 2, every node
probes reachable, yet the configure/add-instance loop issues no calls:
the guard `docker_target > len(get_docker_nodes())` is evaluated after
the topology already reached the target, so it is never true. -/
theorem scale_increase_skips_convergence :
    ((ClusterBridge.scale cfgD1 2 env0).1.success,
      (dockerNodes (ClusterBridge.scale cfgD1 2 env0).2.1).length,
      (ClusterBridge.scale cfgD1 2 env0).2.2) = (true, 2, []) := by decide
